import Mathlib

/-!
Shallow embedding of the chat-backend core of this repository:
the request-processing middleware chain (`Django-Middleware-0x03/chats/middleware.py`)
and the messaging data layer with its signal-driven side effects
(`Django-signals_orm-0x04/messaging/models.py` and `signals.py`).
All definitions are translated from the Python source; theorems about them
settle the specification's testable properties.
-/

/-! ## Request view

A request as the middleware observes it: HTTP method and path, the headers
used for client-identity resolution, and the resolved principal
(`request.user`).  The duck-typed role probing of `RolePermissionMiddleware`
(`hasattr(request.user, 'profile')` / `hasattr(request.user, 'role')`) is
represented by `hasProfile`, `profileRole` and `directRole`; a missing
attribute and an attribute whose value is `None` both behave as `none`. -/

structure Request where
  method : String
  path : String
  xForwardedFor : Option String
  remoteAddr : String
  isAuthenticated : Bool
  username : String
  isStaff : Bool
  isSuperuser : Bool
  hasProfile : Bool
  profileRole : Option String
  directRole : Option String
  permDeleteMessage : Bool
  permModerateConversation : Bool
deriving Repr, DecidableEq

/-- Python's `s.startswith(pat)`, computed on the character lists. -/
def strStartsWith (s pat : String) : Bool :=
  pat.toList.isPrefixOf s.toList

/-- Python's `pat in s` membership test, computed on character lists
(an empty pattern is contained in everything, as in Python). -/
def charsContain : List Char → List Char → Bool
  | l, pat =>
    if pat.isPrefixOf l then true
    else
      match l with
      | [] => false
      | _ :: t => charsContain t pat

/-- Python's `s.lower()`, as a character list. -/
def lowerChars (s : String) : List Char :=
  s.toList.map Char.toLower

/-- The Prop-level substring relation used to state the observable contract
"the denial body contains the substring ...". -/
def StrContains (s pat : String) : Prop :=
  ∃ pre post, s = pre ++ pat ++ post

/-! ## RequestLoggingMiddleware -/

/-- `request.user if request.user.is_authenticated else "Anonymous"`,
rendered for the log line. -/
def displayUser (req : Request) : String :=
  if req.isAuthenticated then req.username else "Anonymous"

/-- The audit line `f"{datetime.now()} - User: {user} - Path: {request.path}\n"`. -/
def logLine (nowStr : String) (req : Request) : String :=
  nowStr ++ " - User: " ++ displayUser req ++ " - Path: " ++ req.path ++ "\n"

/-- The two audit sinks of `RequestLoggingMiddleware`: the `requests.log`
file (primary) and the named `request_logger` fallback used when the file
write raises. -/
structure AuditState where
  fileRecords : List String
  loggerRecords : List String
deriving Repr, DecidableEq

/-- `RequestLoggingMiddleware.__call__` up to the `get_response` call:
writes one line to the file; if the file sink fails (`primaryOk = false`,
the `except Exception` branch), falls back to `logger.info`.  It never
denies and never raises. -/
def requestLoggingCall (primaryOk : Bool) (nowStr : String) (st : AuditState)
    (req : Request) : AuditState :=
  if primaryOk then
    { st with fileRecords := st.fileRecords ++ [logLine nowStr req] }
  else
    { st with loggerRecords := st.loggerRecords ++ [logLine nowStr req] }

/-! ## RestrictAccessByTimeMiddleware -/

/-- `request.path.startswith('/chats/') or request.path.startswith('/api/chats/')`. -/
def chatPathMatch (p : String) : Bool :=
  strStartsWith p "/chats/" || strStartsWith p "/api/chats/"

/-- `request.method in ('GET', 'HEAD', 'OPTIONS')`. -/
def safeMethod (m : String) : Bool :=
  m == "GET" || m == "HEAD" || m == "OPTIONS"

/-- The applicability test of the time gate (the outer `if` of
`RestrictAccessByTimeMiddleware.__call__`). -/
def timeGateApplies (req : Request) : Bool :=
  chatPathMatch req.path && safeMethod req.method

/-- `RestrictAccessByTimeMiddleware.__call__` as a decision function:
`some body` is the `HttpResponseForbidden` denial, `none` means the request
proceeds.  `enforce` is the `ENFORCE_CHAT_HOURS` setting (default `True`),
`currentHour` is `timezone.now().hour`. -/
def restrictAccessByTime (enforce : Bool) (currentHour : Nat) (req : Request) :
    Option String :=
  if timeGateApplies req then
    if enforce then
      if currentHour < 9 || 18 ≤ currentHour then
        some "Chat access is restricted to 9 AM - 6 PM. Please try again during allowed hours."
      else none
    else none
  else none

/-! ## OffensiveLanguageMiddleware (rate limiter) -/

/-- The Django cache as the middleware uses it: an association list of
(key, value, expiry instant).  `cache.set key v timeout` stores expiry
`now + timeout`; an entry is live while `now < expiry` (locmem treats
`exp <= now` as expired). -/
abbrev Cache := List (String × Nat × Nat)

/-- `cache.get(cache_key, 0)` at instant `now`: the stored value when the
entry is live, else the default `0`. -/
def cacheGet (c : Cache) (key : String) (now : Nat) : Nat :=
  match c.find? (fun e => e.1 == key) with
  | some e => if now < e.2.2 then e.2.1 else 0
  | none => 0

/-- `cache.set(cache_key, v, timeout)` at instant `now`: replaces the entry
for `key` with value `v` expiring at `now + timeout`. -/
def cacheSet (c : Cache) (key : String) (v : Nat) (expiry : Nat) : Cache :=
  (key, v, expiry) :: c.filter (fun e => !(e.1 == key))

/-- `OffensiveLanguageMiddleware.get_client_ip`: the first comma-separated
entry of a non-empty `X-Forwarded-For` header, else `REMOTE_ADDR`
(Python's truthiness makes an empty header fall through). -/
def getClientIp (req : Request) : String :=
  match req.xForwardedFor with
  | some xff =>
      if xff == "" then req.remoteAddr
      else String.mk (xff.toList.takeWhile (fun c => !(c == ',')))
  | none => req.remoteAddr

/-- The applicability test of the rate limiter: a `POST` whose path starts
with a chat path or contains `"message"` case-insensitively. -/
def rateLimitApplies (req : Request) : Bool :=
  req.method == "POST" &&
    (strStartsWith req.path "/chats/" || strStartsWith req.path "/api/chats/" ||
      charsContain (lowerChars req.path) "message".toList)

/-- The denial body of the rate limiter. -/
def rateLimitBody : String :=
  "Rate limit exceeded. You can only send 5 messages per minute. Please try again later."

/-- `OffensiveLanguageMiddleware.__call__` up to `get_response`: on an
applicable request, read the counter for `rate_limit_{ip}`; deny when it has
reached 5 (the cache is left untouched — no new entry is recorded); else
store `count + 1` with a fresh 60-second expiry. -/
def offensiveLanguageCall (cache : Cache) (now : Nat) (req : Request) :
    Cache × Option String :=
  if rateLimitApplies req then
    let key := "rate_limit_" ++ getClientIp req
    let count := cacheGet cache key now
    if 5 ≤ count then
      (cache, some rateLimitBody)
    else
      (cacheSet cache key (count + 1) (now + 60), none)
  else (cache, none)

/-- Runs a sequence of timestamped requests through the rate limiter,
threading the cache and collecting each request's outcome. -/
def runRateRequests (cache : Cache) : List (Nat × Request) → Cache × List (Option String)
  | [] => (cache, [])
  | (t, r) :: rest =>
      let step := offensiveLanguageCall cache t r
      let tail := runRateRequests step.1 rest
      (tail.1, step.2 :: tail.2)

/-! ## RolePermissionMiddleware -/

/-- The `restricted_paths` list of `RolePermissionMiddleware.__call__`. -/
def restrictedPathList : List String :=
  ["/chats/delete/", "/chats/moderate/", "/api/chats/delete/", "/api/chats/moderate/"]

/-- `requires_permission`: a sensitive path, or a `DELETE` on a chat path. -/
def requiresPermission (req : Request) : Bool :=
  restrictedPathList.any (fun p => strStartsWith req.path p) ||
    (req.method == "DELETE" && chatPathMatch req.path)

/-- `user_role in ['admin', 'moderator']` applied to an optional role
attribute (`getattr(..., 'role', None)`). -/
def roleIn (r : Option String) : Bool :=
  match r with
  | some s => s == "admin" || s == "moderator"
  | none => false

/-- The `is_moderator` computation: the profile role when
`hasattr(request.user, 'profile')`, `elif` the direct `role` attribute;
`or`-ed with the two permission grants (`has_perm`, with exceptions
swallowed to `False`). -/
def isModeratorCheck (req : Request) : Bool :=
  (if req.hasProfile then roleIn req.profileRole else roleIn req.directRole) ||
    req.permDeleteMessage || req.permModerateConversation

/-- `RolePermissionMiddleware.__call__` as a decision function. -/
def rolePermissionCall (req : Request) : Option String :=
  if requiresPermission req then
    if !req.isAuthenticated then
      some "Authentication required. Please log in to access this resource."
    else
      let isAdmin := req.isSuperuser || req.isStaff
      if !(isAdmin || isModeratorCheck req) then
        some "Access denied. Only admins and moderators can perform this action."
      else none
  else none

/-! ## Middleware pipeline -/

/-- The mutable state the pipeline threads: the audit sinks and the
rate-limit cache. -/
structure PipelineState where
  audit : AuditState
  cache : Cache
deriving Repr, DecidableEq

/-- Modelled from the spec: the middleware chain order — logging, then the
time gate, then the rate limiter, then the role gate, each denial
short-circuiting the rest — is fixed by the Django `MIDDLEWARE` setting,
whose settings module is not among the source files; §4.5 of the spec fixes
this order.  Each gate itself is embedded above from
`chats/middleware.py`, where a denying gate returns the
`HttpResponseForbidden` without calling `get_response`. -/
def pipeline (enforce : Bool) (hour now : Nat) (nowStr : String)
    (primaryOk : Bool) (st : PipelineState) (req : Request) :
    PipelineState × Option String :=
  let st1 : PipelineState := { st with audit := requestLoggingCall primaryOk nowStr st.audit req }
  match restrictAccessByTime enforce hour req with
  | some d => (st1, some d)
  | none =>
      match offensiveLanguageCall st1.cache now req with
      | (c, some d) => ({ st1 with cache := c }, some d)
      | (c, none) =>
          let st2 : PipelineState := { st1 with cache := c }
          match rolePermissionCall req with
          | some d => (st2, some d)
          | none => (st2, none)

/-! ## Messaging data model (`messaging/models.py`)

One Lean structure per Django model, with exactly the model's fields
(primary key `id` included).  Timestamps are abstract `Nat` instants. -/

structure MessageRow where
  id : Nat
  sender : Nat
  receiver : Nat
  content : String
  timestamp : Nat
  edited : Bool
  read : Bool
  parent_message : Option Nat
deriving Repr, DecidableEq

/-- The `MessageHistory` model: fields `message`, `old_content`, `edited_at`
(and the implicit `id`).  Note that the model declares no `edited_by`
field. -/
structure MessageHistoryRow where
  id : Nat
  message : Nat
  old_content : String
  edited_at : Nat
deriving Repr, DecidableEq

structure NotificationRow where
  id : Nat
  user : Nat
  message : Nat
  created_at : Nat
  is_read : Bool
  notification_type : String
deriving Repr, DecidableEq

/-- The database: one table per model, plus per-table auto-increment
primary-key counters. -/
structure Store where
  messages : List MessageRow
  histories : List MessageHistoryRow
  notifications : List NotificationRow
  next_message_pk : Nat
  next_history_pk : Nat
  next_notification_pk : Nat
deriving Repr, DecidableEq

/-- The field names of the `MessageHistory` model, against which Django's
`Model.__init__` validates creation keyword arguments. -/
def messageHistoryFieldList : List String :=
  ["id", "message", "old_content", "edited_at"]

/-- Django `Model.__init__` keyword validation: the first keyword argument
that is not a model field, if any (it raises `TypeError`). -/
def invalidKwarg (fields kwargs : List String) : Option String :=
  kwargs.find? (fun k => !(fields.contains k))

/-- `MessageHistory.objects.create(...)`: Django validates every keyword
argument name against the model's fields in `Model.__init__` and raises
`TypeError` on an unknown one, before anything is written.  The value
arguments carry the data for the declared fields. -/
def messageHistoryCreate (s : Store) (kwargs : List String) (message : Nat)
    (old_content : String) (now : Nat) : Except String Store :=
  match invalidKwarg messageHistoryFieldList kwargs with
  | some k => .error ("TypeError: " ++ k ++ " is an invalid keyword argument for this function")
  | none =>
      .ok { s with
            histories := s.histories ++
              [{ id := s.next_history_pk, message := message,
                 old_content := old_content, edited_at := now }],
            next_history_pk := s.next_history_pk + 1 }

/-- The `post_save` receiver `create_message_notification`: on `created`,
insert one `Notification` for `instance.receiver` with
`notification_type='new_message'` (model defaults: `is_read=False`). -/
def create_message_notification (s : Store) (inst : MessageRow) (created : Bool)
    (now : Nat) : Store :=
  if created then
    { s with
      notifications := s.notifications ++
        [{ id := s.next_notification_pk, user := inst.receiver,
           message := inst.id, created_at := now, is_read := false,
           notification_type := "new_message" }],
      next_notification_pk := s.next_notification_pk + 1 }
  else s

/-- `Message.objects.create(...)`: assigns a fresh primary key and inserts
the row (`edited`/`read` default to `False`); the `pre_save` receiver sees
`instance.pk` still unset and does nothing; the `post_save` receiver fires
with `created=True`. -/
def createMessage (s : Store) (sender receiver : Nat) (content : String)
    (parent_message : Option Nat) (now : Nat) : Store × MessageRow :=
  let m : MessageRow :=
    { id := s.next_message_pk, sender := sender, receiver := receiver,
      content := content, timestamp := now, edited := false, read := false,
      parent_message := parent_message }
  let s1 : Store := { s with messages := s.messages ++ [m],
                             next_message_pk := s.next_message_pk + 1 }
  (create_message_notification s1 m true now, m)

/-- `instance.save()` for a `Message` whose `pk` is set, with both signals:

* `pre_save` `log_message_edits`: load the stored row with this pk; when it
  exists and its content differs, call
  `MessageHistory.objects.create(message=…, old_content=…, edited_by=instance.sender)`
  — whose keyword list the model validates — and set `instance.edited = True`;
  a `Message.DoesNotExist` is swallowed (`pass`).  Any other exception
  propagates and aborts the save.
* the write: `UPDATE` when the row exists, `INSERT` otherwise.
* `post_save` `create_message_notification` with `created` true exactly when
  the write inserted. -/
def saveMessageWithPk (s : Store) (inst : MessageRow) (now : Nat) :
    Except String (Store × MessageRow) :=
  match s.messages.find? (fun m => m.id == inst.id) with
  | some old_message =>
      if old_message.content != inst.content then
        match messageHistoryCreate s ["message", "old_content", "edited_by"]
            inst.id old_message.content now with
        | .error e => .error e
        | .ok s1 =>
            let inst2 : MessageRow := { inst with edited := true }
            .ok ({ s1 with messages :=
                    s1.messages.map (fun m => if m.id == inst2.id then inst2 else m) },
                 inst2)
      else
        .ok ({ s with messages :=
                s.messages.map (fun m => if m.id == inst.id then inst else m) },
             inst)
  | none =>
      let s1 : Store := { s with messages := s.messages ++ [inst] }
      .ok (create_message_notification s1 inst true now, inst)

/-- The content-edit flow the views use: load the message, assign the new
content, `save()`.  An exception from the save (the `pre_save` receiver)
propagates before anything is written, leaving the store untouched. -/
def updateMessageContent (s : Store) (pk : Nat) (new_content : String)
    (now : Nat) : Except String Store :=
  match s.messages.find? (fun m => m.id == pk) with
  | none => .error "Message.DoesNotExist"
  | some m =>
      match saveMessageWithPk s { m with content := new_content } now with
      | .ok r => .ok r.1
      | .error e => .error e

/-! ## Cascade deletion (`on_delete=models.CASCADE`)

`Message.parent_message` is a self-referential cascade foreign key, and
`MessageHistory.message` / `Notification.message` cascade from `Message`.
Django's deletion collector gathers the transitive reply closure of the
rows being deleted and removes everything in one transaction. -/

/-- The rows of `pool` whose parent is one of the already-collected ids. -/
def cascadeChildren (pool : List MessageRow) (acc : List Nat) : List MessageRow :=
  pool.filter (fun m =>
    match m.parent_message with
    | some p => acc.contains p
    | none => false)

/-- One auxiliary fact: filtering out a present element strictly shrinks a
list. -/
theorem filter_length_lt {α : Type} {l : List α} {p : α → Bool} {x : α}
    (hx : x ∈ l) (hpx : p x = false) : (l.filter p).length < l.length := by
  induction l with
  | nil => cases hx
  | cons a t ih =>
      rcases List.mem_cons.mp hx with h | h
      · subst h
        simp only [List.filter_cons, hpx]
        exact Nat.lt_succ_of_le (List.length_filter_le p t)
      · cases hpa : p a with
        | true =>
            simp only [List.filter_cons, hpa]
            simpa using Nat.succ_lt_succ (ih h)
        | false =>
            simp only [List.filter_cons, hpa, Bool.false_eq_true, if_false]
            exact Nat.lt_succ_of_lt (ih h)

/-- Django's deletion collector on the self-referential `parent_message`
cascade: starting from the ids in `acc`, repeatedly adopt every row of the
remaining pool whose parent has already been collected, until no new row
qualifies. -/
def collectCascade (pool : List MessageRow) (acc : List Nat) : List Nat :=
  if hn : cascadeChildren pool acc = [] then acc
  else
    collectCascade
      (pool.filter (fun m => !(((cascadeChildren pool acc).map (fun x => x.id)).contains m.id)))
      (acc ++ (cascadeChildren pool acc).map (fun x => x.id))
termination_by pool.length
decreasing_by
  rcases List.exists_mem_of_ne_nil _ hn with ⟨x, hx⟩
  have hxpool : x ∈ pool := List.mem_of_mem_filter hx
  exact filter_length_lt hxpool (by simpa using ⟨x, hx, rfl⟩)

/-- Every seed id is among the collected ids. -/
theorem mem_collectCascade_of_mem_acc (pool : List MessageRow) (acc : List Nat) :
    ∀ a ∈ acc, a ∈ collectCascade pool acc := by
  induction pool, acc using collectCascade.induct with
  | case1 pool acc hn =>
      intro a ha
      rw [collectCascade, dif_pos hn]
      exact ha
  | case2 pool acc hn ih =>
      intro a ha
      rw [collectCascade, dif_neg hn]
      exact ih a (List.mem_append_left _ ha)

/-- The collected ids are closed under the child relation: a pool row whose
parent is collected is itself collected. -/
theorem collectCascade_closed (pool : List MessageRow) (acc : List Nat) :
    ∀ x p, x ∈ pool → x.parent_message = some p →
      p ∈ collectCascade pool acc → x.id ∈ collectCascade pool acc := by
  induction pool, acc using collectCascade.induct with
  | case1 pool acc hn =>
      intro x p hx hpar hp
      rw [collectCascade, dif_pos hn] at hp ⊢
      exfalso
      have hxc : x ∈ cascadeChildren pool acc := by
        refine List.mem_filter.mpr ⟨hx, ?_⟩
        simp only [hpar]
        exact List.elem_eq_true_of_mem hp
      rw [hn] at hxc
      cases hxc
  | case2 pool acc hn ih =>
      intro x p hx hpar hp
      rw [collectCascade, dif_neg hn] at hp ⊢
      by_cases hxid : x.id ∈ (cascadeChildren pool acc).map (fun y => y.id)
      · exact mem_collectCascade_of_mem_acc _ _ _ (List.mem_append_right _ hxid)
      · have hx2 : x ∈ pool.filter
            (fun m => !(((cascadeChildren pool acc).map (fun y => y.id)).contains m.id)) := by
          refine List.mem_filter.mpr ⟨hx, ?_⟩
          simp [hxid]
        exact ih x p hx2 hpar hp

/-- Deleting the messages with the given ids, with the `MessageHistory` and
`Notification` cascades. -/
def deleteMessagesByIds (s : Store) (ids : List Nat) : Store :=
  { s with
    messages := s.messages.filter (fun m => !(ids.contains m.id)),
    histories := s.histories.filter (fun h => !(ids.contains h.message)),
    notifications := s.notifications.filter (fun n => !(ids.contains n.message)) }

/-- `Message.delete()` / deleting one message by pk: the collector closes
over the reply subtree and removes the collected messages together with
their histories and notifications. -/
def deleteMessage (s : Store) (pk : Nat) : Store :=
  deleteMessagesByIds s (collectCascade s.messages [pk])

/-- `Message.objects.filter(p).delete()`: the queryset's rows seed the
collector, and the same cascade applies. -/
def deleteMessagesWhere (s : Store) (p : MessageRow → Bool) : Store :=
  deleteMessagesByIds s (collectCascade s.messages ((s.messages.filter p).map (fun m => m.id)))

/-! ## Queryset field lookups and the user-deletion flow

`Model.objects.filter(name=value)` resolves the lookup name against the
model's fields when the queryset is built, raising `FieldError` on an
unknown name.  Each lookup function below returns the row predicate for a
known integer-valued field and the `FieldError` otherwise. -/

def fieldErrorFor (name : String) : String :=
  "FieldError: Cannot resolve keyword " ++ name ++ " into field"

/-- Integer-valued lookups on `Message` (`id`, `sender`, `receiver`;
the remaining fields are not integer foreign keys and are not used by the
signals). -/
def messageLookupField (name : String) (value : Nat) :
    Except String (MessageRow → Bool) :=
  if name == "id" then .ok (fun m => m.id == value)
  else if name == "sender" then .ok (fun m => m.sender == value)
  else if name == "receiver" then .ok (fun m => m.receiver == value)
  else .error (fieldErrorFor name)

/-- Integer-valued lookups on `Notification`. -/
def notificationLookupField (name : String) (value : Nat) :
    Except String (NotificationRow → Bool) :=
  if name == "id" then .ok (fun n => n.id == value)
  else if name == "user" then .ok (fun n => n.user == value)
  else if name == "message" then .ok (fun n => n.message == value)
  else .error (fieldErrorFor name)

/-- Integer-valued lookups on `MessageHistory` (`id`, `message`,
`edited_at`; the model declares no `edited_by` field). -/
def historyLookupField (name : String) (value : Nat) :
    Except String (MessageHistoryRow → Bool) :=
  if name == "id" then .ok (fun h => h.id == value)
  else if name == "message" then .ok (fun h => h.message == value)
  else if name == "edited_at" then .ok (fun h => h.edited_at == value)
  else .error (fieldErrorFor name)

/-- The `post_delete` receiver `cleanup_user_data`, line by line:
`Message.objects.filter(sender=instance).delete()`,
`Message.objects.filter(receiver=instance).delete()`,
`Notification.objects.filter(user=instance).delete()`,
`MessageHistory.objects.filter(edited_by=instance).delete()`.
Each filter resolves its lookup name before deleting; an uncaught
exception propagates out of the receiver. -/
def cleanup_user_data (s : Store) (userId : Nat) : Except String Store :=
  match messageLookupField "sender" userId with
  | .error e => .error e
  | .ok p1 =>
      let s1 := deleteMessagesWhere s p1
      match messageLookupField "receiver" userId with
      | .error e => .error e
      | .ok p2 =>
          let s2 := deleteMessagesWhere s1 p2
          match notificationLookupField "user" userId with
          | .error e => .error e
          | .ok p3 =>
              let s3 : Store :=
                { s2 with notifications := s2.notifications.filter (fun n => !(p3 n)) }
              match historyLookupField "edited_by" userId with
              | .error e => .error e
              | .ok p4 =>
                  .ok { s3 with histories := s3.histories.filter (fun h => !(p4 h)) }

/-- The foreign-key cascade triggered by deleting a `User` row: `Message`
rows where the user is sender or receiver (`on_delete=CASCADE` on both,
closing over the reply subtree, histories and notifications) and
`Notification` rows targeting the user. -/
def deleteUserCascade (s : Store) (userId : Nat) : Store :=
  let s1 := deleteMessagesWhere s (fun m => m.sender == userId || m.receiver == userId)
  { s1 with notifications := s1.notifications.filter (fun n => !(n.user == userId)) }

/-- `user.delete()`: Django's collector performs the cascade and sends the
`User` `post_delete` signal inside one transaction; an exception from the
`cleanup_user_data` receiver propagates and rolls the whole deletion back,
so on error no state change is observable. -/
def deleteUser (s : Store) (userId : Nat) : Except String Store :=
  match cleanup_user_data (deleteUserCascade s userId) userId with
  | .ok s2 => .ok s2
  | .error e => .error e

/-! ## Thread retrieval (`MessageManager.get_conversation_thread`)

`self.filter(Q(id=message.id) | Q(parent_message=message) |
Q(parent_message__parent_message=message))` with no `order_by`: the rows
come back in the store's own order, and the double-underscore lookup is an
SQL join (there exists a row `p` with `p.id = x.parent_message` and
`p.parent_message = message.id`). -/
def get_conversation_thread (msgs : List MessageRow) (msg : MessageRow) :
    List MessageRow :=
  msgs.filter (fun x =>
    x.id == msg.id || x.parent_message == some msg.id ||
      msgs.any (fun p => x.parent_message == some p.id && p.parent_message == some msg.id))

/-- Ascending send-time order, as the specification states it for thread
retrieval. -/
def sortedByTimestamp (l : List MessageRow) : Prop :=
  l.Pairwise (fun a b => a.timestamp ≤ b.timestamp)

/-- The transitive reply relation over a message table: `x`'s
`parent_message` chain reaches the message id `target`. -/
inductive ParentChainReaches (msgs : List MessageRow) (target : Nat) : MessageRow → Prop where
  | direct (x : MessageRow) : x ∈ msgs → x.parent_message = some target →
      ParentChainReaches msgs target x
  | step (x p : MessageRow) : x ∈ msgs → p ∈ msgs → x.parent_message = some p.id →
      ParentChainReaches msgs target p → ParentChainReaches msgs target x

/-- Any message whose parent chain reaches the target id is collected by
the deletion cascade seeded with that id. -/
theorem reaches_mem_collectCascade (msgs : List MessageRow) (pk : Nat)
    (x : MessageRow) (hx : ParentChainReaches msgs pk x) :
    x.id ∈ collectCascade msgs [pk] := by
  induction hx with
  | direct y hy hpar =>
      exact collectCascade_closed msgs [pk] y pk hy hpar
        (mem_collectCascade_of_mem_acc msgs [pk] pk (List.mem_singleton.mpr rfl))
  | step y p hy hp hpar _ ih =>
      exact collectCascade_closed msgs [pk] y p.id hy hpar ih

/-! ## Claim theorems -/

/-- C4: with the time gate enabled, a GET on a chat-prefixed path is
allowed at hours 9 and 17 and denied at hours 8 and 18 (the allowed window
is [9,18)); a request whose path is not chat-prefixed, or whose method is
not GET/HEAD/OPTIONS, is never denied by this gate at any hour; and every
denial body contains the substring "restricted". -/
theorem time_gate_halfopen :
    (∀ req : Request, req.method = "GET" → chatPathMatch req.path = true →
      restrictAccessByTime true 9 req = none ∧
      restrictAccessByTime true 17 req = none ∧
      restrictAccessByTime true 8 req =
        some "Chat access is restricted to 9 AM - 6 PM. Please try again during allowed hours." ∧
      restrictAccessByTime true 18 req =
        some "Chat access is restricted to 9 AM - 6 PM. Please try again during allowed hours.") ∧
    (∀ (req : Request) (hour : Nat) (enforce : Bool), chatPathMatch req.path = false →
      restrictAccessByTime enforce hour req = none) ∧
    (∀ (req : Request) (hour : Nat) (enforce : Bool), safeMethod req.method = false →
      restrictAccessByTime enforce hour req = none) ∧
    (∀ (req : Request) (hour : Nat) (enforce : Bool) (b : String),
      restrictAccessByTime enforce hour req = some b → StrContains b "restricted") := by
  refine ⟨?_, ?_, ?_, ?_⟩
  · intro req hm hp
    have hs : safeMethod req.method = true := by simp [safeMethod, hm]
    have ht : timeGateApplies req = true := by simp [timeGateApplies, hp, hs]
    refine ⟨?_, ?_, ?_, ?_⟩ <;> simp [restrictAccessByTime, ht]
  · intro req hour enforce hp
    simp [restrictAccessByTime, timeGateApplies, hp]
  · intro req hour enforce hs
    simp [restrictAccessByTime, timeGateApplies, hs]
  · intro req hour enforce b h
    unfold restrictAccessByTime at h
    split_ifs at h with h1 h2 h3
    · rcases Option.some.inj h with rfl
      exact ⟨"Chat access is ",
        " to 9 AM - 6 PM. Please try again during allowed hours.", rfl⟩

/-- C5: on any DELETE to a chat-prefixed path (such a request always
requires elevated permission) or any other request requiring elevated
permission: an unauthenticated principal is denied with a body containing
"Authentication required"; an authenticated principal that is neither
staff/superuser, nor resolves to role admin/moderator, nor holds a
delete/moderate permission grant is denied with a body containing
"Only admins and moderators"; and a principal satisfying any of the three
conditions passes this gate. -/
theorem role_gate_authorization :
    (∀ req : Request, req.method = "DELETE" → chatPathMatch req.path = true →
      requiresPermission req = true) ∧
    (∀ req : Request, requiresPermission req = true → req.isAuthenticated = false →
      ∃ b, rolePermissionCall req = some b ∧ StrContains b "Authentication required") ∧
    (∀ req : Request, requiresPermission req = true → req.isAuthenticated = true →
      (req.isSuperuser || req.isStaff || isModeratorCheck req) = false →
      ∃ b, rolePermissionCall req = some b ∧ StrContains b "Only admins and moderators") ∧
    (∀ req : Request, requiresPermission req = true → req.isAuthenticated = true →
      (req.isSuperuser || req.isStaff || isModeratorCheck req) = true →
      rolePermissionCall req = none) := by
  refine ⟨?_, ?_, ?_, ?_⟩
  · intro req hm hp
    simp [requiresPermission, hm, hp]
  · intro req hreq hauth
    refine ⟨_, ?_, "", ". Please log in to access this resource.", rfl⟩
    simp [rolePermissionCall, hreq, hauth]
  · intro req hreq hauth hpriv
    refine ⟨_, ?_, "Access denied. ", " can perform this action.", rfl⟩
    have h1 : req.isSuperuser = false := by
      cases h : req.isSuperuser <;> simp [h] at hpriv ⊢
    have h2 : req.isStaff = false := by
      cases h : req.isStaff <;> simp [h] at hpriv ⊢
    have h3 : isModeratorCheck req = false := by
      cases h : isModeratorCheck req <;> simp [h] at hpriv ⊢
    simp [rolePermissionCall, hreq, hauth, h1, h2, h3]
  · intro req hreq hauth hpriv
    rcases Bool.or_eq_true_iff.mp hpriv with h | h
    · rcases Bool.or_eq_true_iff.mp h with h1 | h2
      · simp [rolePermissionCall, hreq, hauth, h1]
      · simp [rolePermissionCall, hreq, hauth, h2]
    · simp [rolePermissionCall, hreq, hauth, h]

/-- The total number of audit records across the primary and fallback
sinks. -/
def auditCount (st : AuditState) : Nat :=
  st.fileRecords.length + st.loggerRecords.length

/-- The pipeline's audit state is exactly the logging middleware's output,
whatever any later gate decides. -/
theorem pipeline_audit_eq (enforce : Bool) (hour now : Nat) (nowStr : String)
    (primaryOk : Bool) (st : PipelineState) (req : Request) :
    (pipeline enforce hour now nowStr primaryOk st req).1.audit
      = requestLoggingCall primaryOk nowStr st.audit req := by
  unfold pipeline
  cases restrictAccessByTime enforce hour req with
  | some d => rfl
  | none =>
      dsimp only
      rcases h2 : offensiveLanguageCall st.cache now req with ⟨c, d2⟩
      cases d2 with
      | some d => rfl
      | none =>
          dsimp only
          cases rolePermissionCall req <;> rfl

/-- The pipeline's allow/deny outcome does not depend on whether the
primary audit sink worked. -/
theorem pipeline_out_audit_indep (enforce : Bool) (hour now : Nat) (nowStr : String)
    (primaryOk : Bool) (st : PipelineState) (req : Request) :
    (pipeline enforce hour now nowStr primaryOk st req).2
      = (pipeline enforce hour now nowStr true st req).2 := by
  unfold pipeline
  cases restrictAccessByTime enforce hour req with
  | some d => rfl
  | none =>
      dsimp only
      rcases h2 : offensiveLanguageCall st.cache now req with ⟨c, d2⟩
      cases d2 with
      | some d => rfl
      | none =>
          dsimp only
          cases rolePermissionCall req <;> rfl

/-- C9: the time gate and the rate limiter apply to disjoint methods (the
time gate only to GET/HEAD/OPTIONS, the rate limiter only to POST), so no
single request can be denied by both; and in the pipeline a time-gate
denial is the observed outcome and short-circuits the rest: the rate
limiter's cache is not touched. -/
theorem gate_order_shortcircuit :
    (∀ req : Request, ¬(timeGateApplies req = true ∧ rateLimitApplies req = true)) ∧
    (∀ (enforce : Bool) (hour now : Nat) (nowStr : String) (primaryOk : Bool)
       (st : PipelineState) (req : Request) (d : String),
       restrictAccessByTime enforce hour req = some d →
       (pipeline enforce hour now nowStr primaryOk st req).2 = some d ∧
       (pipeline enforce hour now nowStr primaryOk st req).1.cache = st.cache) := by
  constructor
  · rintro req ⟨h1, h2⟩
    simp only [timeGateApplies, Bool.and_eq_true] at h1
    simp only [rateLimitApplies, Bool.and_eq_true, beq_iff_eq] at h2
    have hs : safeMethod req.method = true := h1.2
    rw [h2.1] at hs
    simp [safeMethod] at hs
  · intro enforce hour now nowStr primaryOk st req d h
    constructor
    · unfold pipeline
      rw [h]
    · unfold pipeline
      rw [h]

/-- C7: every request produces exactly one audit record — in the primary
sink when it works, else in the fallback sink — containing the request's
path and the principal's display name ("Anonymous" when unauthenticated);
audit never aborts the request, and the pipeline's outcome is the same
whether or not the primary sink worked. -/
theorem audit_always_runs (enforce : Bool) (hour now : Nat) (nowStr : String)
    (primaryOk : Bool) (st : PipelineState) (req : Request) :
    auditCount (pipeline enforce hour now nowStr primaryOk st req).1.audit
      = auditCount st.audit + 1 ∧
    (primaryOk = true →
      (pipeline enforce hour now nowStr primaryOk st req).1.audit
        = { st.audit with fileRecords := st.audit.fileRecords ++ [logLine nowStr req] }) ∧
    (primaryOk = false →
      (pipeline enforce hour now nowStr primaryOk st req).1.audit
        = { st.audit with loggerRecords := st.audit.loggerRecords ++ [logLine nowStr req] }) ∧
    StrContains (logLine nowStr req) req.path ∧
    StrContains (logLine nowStr req) (displayUser req) ∧
    (pipeline enforce hour now nowStr primaryOk st req).2
      = (pipeline enforce hour now nowStr true st req).2 := by
  refine ⟨?_, ?_, ?_, ?_, ?_, pipeline_out_audit_indep enforce hour now nowStr primaryOk st req⟩
  · rw [pipeline_audit_eq]
    cases primaryOk <;> simp [requestLoggingCall, auditCount] <;> omega
  · intro hp
    rw [pipeline_audit_eq, hp]
    rfl
  · intro hp
    rw [pipeline_audit_eq, hp]
    rfl
  · refine ⟨nowStr ++ " - User: " ++ displayUser req ++ " - Path: ", "\n", ?_⟩
    simp [logLine, String.append_assoc]
  · refine ⟨nowStr ++ " - User: ", " - Path: " ++ req.path ++ "\n", ?_⟩
    simp [logLine, String.append_assoc]

/-- The `pre_save` receiver's history creation always raises: `edited_by`
is not a field of the `MessageHistory` model. -/
theorem messageHistoryCreate_edited_by_error (s : Store) (a : Nat) (b : String) (c : Nat) :
    messageHistoryCreate s ["message", "old_content", "edited_by"] a b c
      = .error "TypeError: edited_by is an invalid keyword argument for this function" := rfl

/-- C2: creating a Message appends exactly one Notification, for the
message's receiver, of type "new_message", unread; saving an
already-existing Message (a non-create save) appends none — whether the
save completes (unchanged content) or aborts in the `pre_save` receiver
(changed content). -/
theorem notification_on_create_only (s : Store) (sender receiver : Nat)
    (content : String) (pm : Option Nat) (now now2 : Nat) (inst : MessageRow)
    (hex : (s.messages.find? (fun m => m.id == inst.id)).isSome = true) :
    (∃ n : NotificationRow,
      (createMessage s sender receiver content pm now).1.notifications
        = s.notifications ++ [n] ∧
      n.user = receiver ∧ n.notification_type = "new_message" ∧
      n.is_read = false ∧
      n.message = (createMessage s sender receiver content pm now).2.id) ∧
    (match saveMessageWithPk s inst now2 with
     | .ok r => r.1.notifications = s.notifications
     | .error _ => True) := by
  constructor
  · exact ⟨_, rfl, rfl, rfl, rfl, rfl⟩
  · obtain ⟨old, hold⟩ := Option.isSome_iff_exists.mp hex
    cases hc : old.content != inst.content with
    | true =>
        simp [saveMessageWithPk, hold, hc, messageHistoryCreate_edited_by_error]
    | false =>
        simp [saveMessageWithPk, hold, hc]

/-- A one-message store: message 1 from user 10 to user 11 with content
"A". -/
def storeA : Store :=
  { messages := [{ id := 1, sender := 10, receiver := 11, content := "A",
                   timestamp := 0, edited := false, read := false,
                   parent_message := none }],
    histories := [], notifications := [],
    next_message_pk := 2, next_history_pk := 1, next_notification_pk := 1 }

/-- C1 (code bug): editing message 1's content from "A" to "B" does not
create a MessageHistory row — the `pre_save` receiver passes the keyword
`edited_by` to `MessageHistory.objects.create` although the model declares
no such field, so the save raises `TypeError` and aborts, leaving the store
untouched; editing from "A" to "A" completes and creates no history row
and changes nothing. -/
theorem history_on_edit_type_error :
    updateMessageContent storeA 1 "B" 5
      = .error "TypeError: edited_by is an invalid keyword argument for this function" ∧
    updateMessageContent storeA 1 "A" 5 = .ok storeA := ⟨rfl, rfl⟩

/-- C6 (code bug): deleting any user raises — the `post_delete` receiver
`cleanup_user_data` builds the queryset
`MessageHistory.objects.filter(edited_by=instance)` although the model
declares no `edited_by` field, so a `FieldError` propagates out of the
receiver and the surrounding transaction rolls the whole deletion back. -/
theorem user_deletion_field_error (s : Store) (userId : Nat) :
    deleteUser s userId
      = .error "FieldError: Cannot resolve keyword edited_by into field" := rfl

/-- C10: deleting a message removes it, every message whose
`parent_message` chain reaches it, and the histories and notifications of
all removed messages, via the self-referential cascade foreign key. -/
theorem delete_message_cascades (s : Store) (pk : Nat) (x : MessageRow)
    (hx : ParentChainReaches s.messages pk x) :
    x ∉ (deleteMessage s pk).messages ∧
    (∀ m, m ∈ (deleteMessage s pk).messages → m.id ≠ pk) ∧
    (∀ h, h ∈ (deleteMessage s pk).histories → h.message ≠ pk ∧ h.message ≠ x.id) ∧
    (∀ n, n ∈ (deleteMessage s pk).notifications → n.message ≠ pk ∧ n.message ≠ x.id) := by
  have hpkD : pk ∈ collectCascade s.messages [pk] :=
    mem_collectCascade_of_mem_acc s.messages [pk] pk (List.mem_singleton.mpr rfl)
  have hxD : x.id ∈ collectCascade s.messages [pk] :=
    reaches_mem_collectCascade s.messages pk x hx
  refine ⟨?_, ?_, ?_, ?_⟩
  · intro hmem
    have hmm : x.id ∉ collectCascade s.messages [pk] := by
      simpa using (List.mem_filter.mp hmem).2
    exact hmm hxD
  · intro m hmem heq
    have hmm : m.id ∉ collectCascade s.messages [pk] := by
      simpa using (List.mem_filter.mp hmem).2
    rw [heq] at hmm
    exact hmm hpkD
  · intro h hmem
    have hmm : h.message ∉ collectCascade s.messages [pk] := by
      simpa using (List.mem_filter.mp hmem).2
    constructor
    · intro heq
      rw [heq] at hmm
      exact hmm hpkD
    · intro heq
      rw [heq] at hmm
      exact hmm hxD
  · intro n hmem
    have hmm : n.message ∉ collectCascade s.messages [pk] := by
      simpa using (List.mem_filter.mp hmem).2
    constructor
    · intro heq
      rw [heq] at hmm
      exact hmm hpkD
    · intro heq
      rw [heq] at hmm
      exact hmm hxD

/-- A fixed identity sending a rate-limited POST: no forwarding header, so
the client identity is the peer address. -/
def postChatReq : Request :=
  { method := "POST", path := "/chats/messages/send/", xForwardedFor := none,
    remoteAddr := "203.0.113.9", isAuthenticated := true, username := "alice",
    isStaff := false, isSuperuser := false, hasProfile := false,
    profileRole := none, directRole := none,
    permDeleteMessage := false, permModerateConversation := false }

/-- First rate-limiter step on an empty cache: admitted, counter 1,
expiry 60 seconds out. -/
theorem rate_step_empty (req : Request) (h : rateLimitApplies req = true) (t : Nat) :
    offensiveLanguageCall [] t req
      = ([("rate_limit_" ++ getClientIp req, 1, t + 60)], none) := by
  simp [offensiveLanguageCall, h, cacheGet, cacheSet]

/-- Rate-limiter step on a live counter below the limit: admitted, counter
incremented, expiry reset to 60 seconds from this request. -/
theorem rate_step_live (req : Request) (h : rateLimitApplies req = true)
    (n e t : Nat) (hl : t < e) (hn : n < 5) :
    offensiveLanguageCall [("rate_limit_" ++ getClientIp req, n, e)] t req
      = ([("rate_limit_" ++ getClientIp req, n + 1, t + 60)], none) := by
  simp [offensiveLanguageCall, h, cacheGet, cacheSet, hl, Nat.not_le.mpr hn]

/-- Rate-limiter step on a live counter at the limit: denied, cache
untouched. -/
theorem rate_step_deny (req : Request) (h : rateLimitApplies req = true)
    (e t : Nat) (hl : t < e) :
    offensiveLanguageCall [("rate_limit_" ++ getClientIp req, 5, e)] t req
      = ([("rate_limit_" ++ getClientIp req, 5, e)], some rateLimitBody) := by
  simp [offensiveLanguageCall, h, cacheGet, hl]

/-- Rate-limiter step on an expired counter: admitted as if fresh. -/
theorem rate_step_expired (req : Request) (h : rateLimitApplies req = true)
    (n e t : Nat) (hl : e ≤ t) :
    offensiveLanguageCall [("rate_limit_" ++ getClientIp req, n, e)] t req
      = ([("rate_limit_" ++ getClientIp req, 1, t + 60)], none) := by
  simp [offensiveLanguageCall, h, cacheGet, cacheSet, Nat.not_lt.mpr hl]

/-- C3 counterexample: the fixed identity sends 5 qualifying POSTs at
seconds 0, 0, 0, 0 and 59 — all within 60 seconds of the first and all
admitted — and then one more at second 61, when 60 seconds have fully
elapsed since the first request.  The claim says this request succeeds
again; the code denies it, because each admitted request reset the
counter's expiry to 60 seconds from itself (the counter lives until second
119). -/
theorem rate_reset_counterexample :
    (runRateRequests [] [(0, postChatReq), (0, postChatReq), (0, postChatReq),
        (0, postChatReq), (59, postChatReq)]).2
      = [none, none, none, none, none] ∧
    (offensiveLanguageCall (runRateRequests [] [(0, postChatReq), (0, postChatReq),
        (0, postChatReq), (0, postChatReq), (59, postChatReq)]).1 61 postChatReq).2
      = some rateLimitBody := ⟨rfl, rfl⟩

/-- C3 amended: for a fixed qualifying identity, 5 POSTs within 60 seconds
of the first are all admitted; a 6th inside that window is denied and
records no new cache entry; and a request is admitted again once 60
seconds have elapsed since the LAST admitted request (the counter's expiry
is reset by every admitted request), rather than since the first. -/
theorem rate_window_amended (req : Request) (h : rateLimitApplies req = true)
    (t1 t2 t3 t4 t5 t6 t7 : Nat)
    (h12 : t1 ≤ t2) (h23 : t2 ≤ t3) (h34 : t3 ≤ t4) (h45 : t4 ≤ t5)
    (hwin : t5 < t1 + 60) (h6 : t5 ≤ t6) (h6w : t6 < t1 + 60) (h7 : t5 + 60 ≤ t7) :
    runRateRequests [] [(t1, req), (t2, req), (t3, req), (t4, req), (t5, req)]
      = ([("rate_limit_" ++ getClientIp req, 5, t5 + 60)],
         [none, none, none, none, none]) ∧
    offensiveLanguageCall [("rate_limit_" ++ getClientIp req, 5, t5 + 60)] t6 req
      = ([("rate_limit_" ++ getClientIp req, 5, t5 + 60)], some rateLimitBody) ∧
    (offensiveLanguageCall [("rate_limit_" ++ getClientIp req, 5, t5 + 60)] t7 req).2
      = none := by
  refine ⟨?_, ?_, ?_⟩
  · simp [runRateRequests,
      rate_step_empty req h t1,
      rate_step_live req h 1 (t1 + 60) t2 (by omega) (by omega),
      rate_step_live req h 2 (t2 + 60) t3 (by omega) (by omega),
      rate_step_live req h 3 (t3 + 60) t4 (by omega) (by omega),
      rate_step_live req h 4 (t4 + 60) t5 (by omega) (by omega)]
  · exact rate_step_deny req h (t5 + 60) t6 (by omega)
  · rw [rate_step_expired req h 5 (t5 + 60) t7 (by omega)]

/-- Witness: the amended C3 statement at the concrete identity, with the 5
requests at second 0, the denied 6th at second 0 and the re-admitted
request at second 60. -/
theorem rate_window_amended_witness :
    runRateRequests [] [(0, postChatReq), (0, postChatReq), (0, postChatReq),
        (0, postChatReq), (0, postChatReq)]
      = ([("rate_limit_203.0.113.9", 5, 60)], [none, none, none, none, none]) ∧
    offensiveLanguageCall [("rate_limit_203.0.113.9", 5, 60)] 0 postChatReq
      = ([("rate_limit_203.0.113.9", 5, 60)], some rateLimitBody) ∧
    (offensiveLanguageCall [("rate_limit_203.0.113.9", 5, 60)] 60 postChatReq).2 = none :=
  rate_window_amended postChatReq (by decide) 0 0 0 0 0 0 60
    (by decide) (by decide) (by decide) (by decide) (by decide) (by decide)
    (by decide) (by decide)

/-- A thread root whose reply was sent (per its timestamp) before the root
itself — legal data, since `timestamp` is just a column. -/
def threadMsg1 : MessageRow :=
  { id := 1, sender := 10, receiver := 11, content := "root", timestamp := 5,
    edited := false, read := false, parent_message := none }

/-- A direct reply to `threadMsg1` with an earlier timestamp. -/
def threadMsg2 : MessageRow :=
  { id := 2, sender := 11, receiver := 10, content := "reply", timestamp := 3,
    edited := false, read := false, parent_message := some 1 }

def threadStore : List MessageRow := [threadMsg1, threadMsg2]

/-- C8 counterexample: `get_conversation_thread` applies no ordering — it
returns the rows in store order, here `[threadMsg1, threadMsg2]` with
timestamps `[5, 3]`, which is not ascending send-time order as the claim
requires. -/
theorem thread_not_time_ordered :
    get_conversation_thread threadStore threadMsg1 = [threadMsg1, threadMsg2] ∧
    ¬ sortedByTimestamp (get_conversation_thread threadStore threadMsg1) := by
  constructor
  · rfl
  · intro h
    rw [show get_conversation_thread threadStore threadMsg1 = [threadMsg1, threadMsg2] from rfl] at h
    have := (List.pairwise_cons.mp h).1 threadMsg2 (List.mem_singleton.mpr rfl)
    simp [threadMsg1, threadMsg2] at this

/-- C8 amended: for a stored message `msg` in a table with distinct ids,
`get_conversation_thread` returns exactly the set consisting of `msg`, its
direct replies, and replies of those replies (two levels, not deeper) —
but in store order (the query applies no `order_by`), not sorted by send
time. -/
theorem thread_membership (msgs : List MessageRow) (msg : MessageRow)
    (hmem : msg ∈ msgs) (hnodup : (msgs.map (fun m => m.id)).Nodup) :
    (∀ x, x ∈ get_conversation_thread msgs msg ↔
      (x = msg ∨ (x ∈ msgs ∧ x.parent_message = some msg.id) ∨
        (x ∈ msgs ∧ ∃ p, p ∈ msgs ∧ x.parent_message = some p.id ∧
          p.parent_message = some msg.id))) ∧
    (get_conversation_thread msgs msg).Sublist msgs := by
  constructor
  · intro x
    constructor
    · intro hx
      rcases List.mem_filter.mp hx with ⟨hxm, hcond⟩
      simp only [Bool.or_eq_true, beq_iff_eq, List.any_eq_true, Bool.and_eq_true] at hcond
      rcases hcond with (hid | hpar) | ⟨p, hp, h1, h2⟩
      · exact Or.inl (List.inj_on_of_nodup_map hnodup hxm hmem hid)
      · exact Or.inr (Or.inl ⟨hxm, hpar⟩)
      · exact Or.inr (Or.inr ⟨hxm, p, hp, h1, h2⟩)
    · intro hx
      apply List.mem_filter.mpr
      rcases hx with rfl | ⟨hxm, hpar⟩ | ⟨hxm, p, hp, h1, h2⟩
      · exact ⟨hmem, by simp⟩
      · exact ⟨hxm, by simp [hpar]⟩
      · refine ⟨hxm, ?_⟩
        simp only [Bool.or_eq_true, beq_iff_eq, List.any_eq_true, Bool.and_eq_true]
        exact Or.inr ⟨p, hp, by simp [h1], by simp [h2]⟩
  · exact List.filter_sublist _

/-! ## Witnesses: the theorems above applied at concrete inputs -/

/-- A concrete GET on a chat path from an anonymous caller. -/
def getChatReq : Request :=
  { method := "GET", path := "/chats/conversations/", xForwardedFor := none,
    remoteAddr := "203.0.113.9", isAuthenticated := false, username := "",
    isStaff := false, isSuperuser := false, hasProfile := false,
    profileRole := none, directRole := none,
    permDeleteMessage := false, permModerateConversation := false }

/-- A concrete unauthenticated DELETE on a chat path. -/
def deleteAnonReq : Request :=
  { method := "DELETE", path := "/chats/42/", xForwardedFor := none,
    remoteAddr := "203.0.113.9", isAuthenticated := false, username := "",
    isStaff := false, isSuperuser := false, hasProfile := false,
    profileRole := none, directRole := none,
    permDeleteMessage := false, permModerateConversation := false }

/-- A concrete staff DELETE on a chat path. -/
def deleteStaffReq : Request :=
  { deleteAnonReq with isAuthenticated := true, username := "mod", isStaff := true }

/-- An empty pipeline state. -/
def pipelineSt0 : PipelineState :=
  { audit := { fileRecords := [], loggerRecords := [] }, cache := [] }

/-- Witness for C4 at the concrete GET chat request. -/
theorem time_gate_halfopen_witness :
    restrictAccessByTime true 9 getChatReq = none ∧
    restrictAccessByTime true 17 getChatReq = none ∧
    restrictAccessByTime true 8 getChatReq =
      some "Chat access is restricted to 9 AM - 6 PM. Please try again during allowed hours." ∧
    restrictAccessByTime true 18 getChatReq =
      some "Chat access is restricted to 9 AM - 6 PM. Please try again during allowed hours." :=
  time_gate_halfopen.1 getChatReq rfl (by decide)

/-- Witness for C5: the anonymous DELETE is in scope and denied for
authentication; the staff DELETE passes the gate. -/
theorem role_gate_authorization_witness :
    requiresPermission deleteAnonReq = true ∧
    (∃ b, rolePermissionCall deleteAnonReq = some b ∧
      StrContains b "Authentication required") ∧
    rolePermissionCall deleteStaffReq = none :=
  ⟨role_gate_authorization.1 deleteAnonReq rfl (by decide),
   role_gate_authorization.2.1 deleteAnonReq (by decide) rfl,
   role_gate_authorization.2.2.2 deleteStaffReq (by decide) rfl rfl⟩

/-- Witness for C9: at hour 8 the GET chat request is denied by the time
gate, the pipeline reports that denial, and the rate-limit cache is
untouched. -/
theorem gate_order_shortcircuit_witness :
    (pipeline true 8 0 "2026-10-12" true pipelineSt0 getChatReq).2
      = some "Chat access is restricted to 9 AM - 6 PM. Please try again during allowed hours." ∧
    (pipeline true 8 0 "2026-10-12" true pipelineSt0 getChatReq).1.cache
      = pipelineSt0.cache :=
  gate_order_shortcircuit.2 true 8 0 "2026-10-12" true pipelineSt0 getChatReq
    "Chat access is restricted to 9 AM - 6 PM. Please try again during allowed hours."
    (by decide)

/-- Witness for C7: both sink outcomes produce exactly the one audit
line. -/
theorem audit_always_runs_witness :
    (pipeline true 10 0 "2026-10-12" true pipelineSt0 getChatReq).1.audit
      = { fileRecords := [logLine "2026-10-12" getChatReq], loggerRecords := [] } ∧
    (pipeline true 10 0 "2026-10-12" false pipelineSt0 getChatReq).1.audit
      = { fileRecords := [], loggerRecords := [logLine "2026-10-12" getChatReq] } :=
  ⟨(audit_always_runs true 10 0 "2026-10-12" true pipelineSt0 getChatReq).2.1 rfl,
   (audit_always_runs true 10 0 "2026-10-12" false pipelineSt0 getChatReq).2.2.1 rfl⟩

/-- The updated instance used in the C2 witness: message 1 of `storeA`
with content changed to "B". -/
def storeAInstB : MessageRow :=
  { id := 1, sender := 10, receiver := 11, content := "B", timestamp := 0,
    edited := false, read := false, parent_message := none }

/-- Witness for C2 at the one-message store. -/
theorem notification_on_create_only_witness :
    (∃ n : NotificationRow,
      (createMessage storeA 10 11 "hi" none 7).1.notifications
        = storeA.notifications ++ [n] ∧
      n.user = 11 ∧ n.notification_type = "new_message" ∧
      n.is_read = false ∧
      n.message = (createMessage storeA 10 11 "hi" none 7).2.id) ∧
    (match saveMessageWithPk storeA storeAInstB 8 with
     | .ok r => r.1.notifications = storeA.notifications
     | .error _ => True) :=
  notification_on_create_only storeA 10 11 "hi" none 7 8 storeAInstB (by decide)

/-- A three-message reply chain 1 ← 2 ← 3 with a history row and a
notification on message 3, for the C10 witness. -/
def cascadeMsg1 : MessageRow :=
  { id := 1, sender := 10, receiver := 11, content := "a", timestamp := 0,
    edited := false, read := false, parent_message := none }

def cascadeMsg2 : MessageRow :=
  { id := 2, sender := 11, receiver := 10, content := "b", timestamp := 1,
    edited := false, read := false, parent_message := some 1 }

def cascadeMsg3 : MessageRow :=
  { id := 3, sender := 10, receiver := 11, content := "c", timestamp := 2,
    edited := false, read := false, parent_message := some 2 }

def cascadeStore : Store :=
  { messages := [cascadeMsg1, cascadeMsg2, cascadeMsg3],
    histories := [{ id := 1, message := 3, old_content := "old", edited_at := 4 }],
    notifications := [{ id := 1, user := 11, message := 3, created_at := 2,
                        is_read := false, notification_type := "new_message" }],
    next_message_pk := 4, next_history_pk := 2, next_notification_pk := 2 }

/-- Witness for C10: message 3, a reply-of-a-reply of message 1, is removed
by deleting message 1, together with the root and the histories and
notifications of the removed messages. -/
theorem delete_message_cascades_witness :
    cascadeMsg3 ∉ (deleteMessage cascadeStore 1).messages ∧
    (∀ m, m ∈ (deleteMessage cascadeStore 1).messages → m.id ≠ 1) ∧
    (∀ h, h ∈ (deleteMessage cascadeStore 1).histories →
      h.message ≠ 1 ∧ h.message ≠ cascadeMsg3.id) ∧
    (∀ n, n ∈ (deleteMessage cascadeStore 1).notifications →
      n.message ≠ 1 ∧ n.message ≠ cascadeMsg3.id) :=
  delete_message_cascades cascadeStore 1 cascadeMsg3
    (ParentChainReaches.step cascadeMsg3 cascadeMsg2 (by decide) (by decide) rfl
      (ParentChainReaches.direct cascadeMsg2 (by decide) rfl))

/-- Witness for the amended C8 at the two-message store: the reply is in
the thread, characterized by the membership equivalence, and the result is
a sublist of the store. -/
theorem thread_membership_witness :
    (threadMsg2 ∈ get_conversation_thread threadStore threadMsg1 ↔
      (threadMsg2 = threadMsg1 ∨
        (threadMsg2 ∈ threadStore ∧ threadMsg2.parent_message = some threadMsg1.id) ∨
        (threadMsg2 ∈ threadStore ∧ ∃ p, p ∈ threadStore ∧
          threadMsg2.parent_message = some p.id ∧
          p.parent_message = some threadMsg1.id))) ∧
    (get_conversation_thread threadStore threadMsg1).Sublist threadStore :=
  ⟨(thread_membership threadStore threadMsg1 (by decide) (by decide)).1 threadMsg2,
   (thread_membership threadStore threadMsg1 (by decide) (by decide)).2⟩
